import Mathlib

/-
Verification development for the redux shopping-list code-along repository.

The program under study is a small redux application:
- src/reducers/shoppingListItemReducer.js: the canonical reducer, a switch on
  action.type with cases GET_SHOPPING_LIST_ITEMS (return action.payload),
  ADD_SHOPPING_LIST_ITEM (return a fresh array spreading state and appending
  action.payload), and a default branch returning state unchanged;
- the action creators getShoppingListItems and addShoppingListItem;
- NewItemForm.js: a form component whose submit handler reads the text field
  value and passes it, unmodified and unconditionally, to the props.addItem
  callback;
- an earlier draft of the reducer from the tutorial text, which appends an
  object wrapping action.payload under a description key instead of appending
  action.payload itself.

Javascript values are embedded as a small inductive type JSValue covering the
shapes the program builds: strings, numbers, arrays and plain objects given as
ordered key-value lists. Reducer application is embedded as an Except value so
that the one javascript failure mode of the reducer body, spreading a
non-iterable state, is visible as an error constructor; every run reachable
from the programs own states stays in the ok constructor. A second, heap-level
embedding of the reducer makes the no-mutation claim statable: arrays live at
addresses in an explicit heap, the add branch allocates a fresh cell, and no
existing cell is ever written.
-/

namespace ShoppingList

/-- Embedding of the javascript values this program constructs: strings,
numbers, arrays, and object literals given as ordered key-value field lists. -/
inductive JSValue where
  | str (s : String)
  | num (n : Int)
  | arr (elems : List JSValue)
  | obj (fields : List (String × JSValue))
  deriving Repr

/-- A redux action as built by this program: a tagged record with a type string
and a payload value. -/
structure Action where
  type : String
  payload : JSValue
  deriving Repr

/-- Semantics of the javascript spread syntax applied to a value, as used in
the reducer body: arrays spread to their elements, strings spread to their
one-character substrings, and every other value raises a TypeError. -/
def jsSpread : JSValue → Except String (List JSValue)
  | .arr elems => .ok elems
  | .str s => .ok (s.toList.map (fun c => .str (String.mk [c])))
  | _ => .error "TypeError: value is not iterable"

/-- Embedding of src/reducers/shoppingListItemReducer.js: switch on
action.type; the GET_SHOPPING_LIST_ITEMS case returns action.payload, the
ADD_SHOPPING_LIST_ITEM case returns a fresh array of the spread state followed
by action.payload, and the default branch returns state unchanged. -/
def shoppingListItemReducer (state : JSValue) (action : Action) : Except String JSValue :=
  if action.type = "GET_SHOPPING_LIST_ITEMS" then
    .ok action.payload
  else if action.type = "ADD_SHOPPING_LIST_ITEM" then
    (jsSpread state).map (fun xs => .arr (xs ++ [action.payload]))
  else
    .ok state

/-- Embedding of the default parameter of the reducer, state = []. -/
def initialState : JSValue := .arr []

/-- Embedding of the draft reducer shown mid-tutorial, identical to the
canonical one except that the ADD_SHOPPING_LIST_ITEM case appends an object
wrapping action.payload under a description key. -/
def shoppingListItemReducerDraft (state : JSValue) (action : Action) : Except String JSValue :=
  if action.type = "GET_SHOPPING_LIST_ITEMS" then
    .ok action.payload
  else if action.type = "ADD_SHOPPING_LIST_ITEM" then
    (jsSpread state).map (fun xs => .arr (xs ++ [.obj [("description", action.payload)]]))
  else
    .ok state

/-- Embedding of the action creator addShoppingListItem: it builds the new
item as an object with the single field description mapped to its argument,
and returns the tagged action with that item as payload. -/
def addShoppingListItem (newItemDescription : JSValue) : Action :=
  ⟨"ADD_SHOPPING_LIST_ITEM", .obj [("description", newItemDescription)]⟩

/-- The fixed seed list built inside getShoppingListItems: three items
carrying an id and a description. -/
def seedItems : List JSValue :=
  [ .obj [("id", .num 1), ("description", .str "milk")],
    .obj [("id", .num 2), ("description", .str "cookies")],
    .obj [("id", .num 3), ("description", .str "sprinkles")] ]

/-- Embedding of the action creator getShoppingListItems: it returns the
GET_SHOPPING_LIST_ITEMS action carrying the fixed seed list as payload. -/
def getShoppingListItems : Action :=
  ⟨"GET_SHOPPING_LIST_ITEMS", .arr seedItems⟩

/-- Javascript property read of the description field: defined on object
values via lookup in the field list, absent on every other value. -/
def descriptionOf (v : JSValue) : Option JSValue :=
  match v with
  | .obj fields => fields.lookup "description"
  | _ => none

/-- Folding a list of dispatched actions through the reducer from a starting
state, stopping at the first error. -/
def applyActions : JSValue → List Action → Except String JSValue
  | s, [] => .ok s
  | s, a :: rest =>
    match shoppingListItemReducer s a with
    | .ok s2 => applyActions s2 rest
    | .error e => .error e

/-- The submit event as seen by NewItemForm.triggerAddItem: the only datum the
handler reads from it is the value of the text input, reached in the source as
event.target.children[1].value. -/
structure FormEvent where
  fieldValue : String
  deriving Repr

/-- Embedding of NewItemForm.triggerAddItem: after event.preventDefault, the
handler reads the text field value and calls props.addItem on it, once and
unconditionally. The returned list records the argument of each call the
handler makes to props.addItem during one submission. -/
def triggerAddItem (event : FormEvent) : List String := [event.fieldValue]

/-- Following the words of the spec contract for the form component: the
trimmed field value, with leading and trailing whitespace characters removed.
Stated structurally over the character list so it evaluates by decide. -/
def specTrimmedValue (s : String) : String :=
  String.mk (((s.toList.dropWhile Char.isWhitespace).reverse.dropWhile Char.isWhitespace).reverse)

/-- A heap of allocated javascript arrays; an address is an index into the
list. -/
abbrev Heap := List (List JSValue)

/-- Reading the array stored at an address of the heap. -/
def readArr (h : Heap) (a : Nat) : List JSValue := h.getD a []

/-- Result of a heap-level reducer call: either an address of an array, or an
immediate value when the reducer returns the payload it was handed. -/
inductive HeapResult where
  | ref (a : Nat)
  | val (v : JSValue)

/-- Heap-level embedding of the same reducer source, with the state passed by
reference as an address: the GET_SHOPPING_LIST_ITEMS case returns the payload
value, the ADD_SHOPPING_LIST_ITEM case allocates one fresh array cell holding
the elements of the state cell followed by the payload, and the default branch
returns the state address. No branch writes to an existing cell. -/
def shoppingListItemReducerHeap (h : Heap) (state : Nat) (action : Action) :
    Heap × HeapResult :=
  if action.type = "GET_SHOPPING_LIST_ITEMS" then
    (h, .val action.payload)
  else if action.type = "ADD_SHOPPING_LIST_ITEM" then
    (h ++ [readArr h state ++ [action.payload]], .ref h.length)
  else
    (h, .ref state)

/-- Bridging lemma: on an add action, the fresh cell allocated by the
heap-level reducer holds exactly the array the value-level reducer returns for
the corresponding array state. -/
theorem reducerHeap_agrees_on_add (h : Heap) (s : Nat) (d : JSValue) :
    shoppingListItemReducer (.arr (readArr h s)) (addShoppingListItem d) =
      .ok (.arr (readArr (shoppingListItemReducerHeap h s (addShoppingListItem d)).1 h.length)) := by
  simp [shoppingListItemReducer, shoppingListItemReducerHeap, addShoppingListItem,
    jsSpread, Except.map, readArr]

/-- Claim C1: for every sequence S of items and every string x, the reducer
applied to S and the action built by addShoppingListItem for x yields a
sequence one longer than S, whose first elements are the elements of S in
order and whose last element is the object with the single field
description = x. -/
theorem addItem_append_spec (S : List JSValue) (x : String) :
    shoppingListItemReducer (.arr S) (addShoppingListItem (.str x)) =
      .ok (.arr (S ++ [JSValue.obj [("description", JSValue.str x)]])) ∧
    (S ++ [JSValue.obj [("description", JSValue.str x)]]).length = S.length + 1 ∧
    (S ++ [JSValue.obj [("description", JSValue.str x)]]).take S.length = S ∧
    (S ++ [JSValue.obj [("description", JSValue.str x)]]).getLast? =
      some (JSValue.obj [("description", JSValue.str x)]) := by
  refine ⟨rfl, by simp, List.take_left _ _, by simp [List.getLast?_concat]⟩

/-- Claim C2: for every state S and every sequence L, the reducer applied to S
and a GET_SHOPPING_LIST_ITEMS action with payload L returns exactly L,
discarding S entirely. -/
theorem loadItems_full_replace (S : JSValue) (L : List JSValue) :
    shoppingListItemReducer S ⟨"GET_SHOPPING_LIST_ITEMS", .arr L⟩ = .ok (.arr L) := rfl

/-- Claim C3: for every array state S the reducer returns an ok result on
every action, and on any action whose type is neither GET_SHOPPING_LIST_ITEMS
nor ADD_SHOPPING_LIST_ITEM it returns exactly S unchanged. -/
theorem reducer_default_identity_total (S : List JSValue) (a : Action) :
    (∃ v, shoppingListItemReducer (.arr S) a = .ok v) ∧
    (a.type ≠ "GET_SHOPPING_LIST_ITEMS" → a.type ≠ "ADD_SHOPPING_LIST_ITEM" →
      shoppingListItemReducer (.arr S) a = .ok (.arr S)) := by
  constructor
  · unfold shoppingListItemReducer
    split
    · exact ⟨_, rfl⟩
    · split
      · exact ⟨_, rfl⟩
      · exact ⟨_, rfl⟩
  · intro h1 h2
    simp [shoppingListItemReducer, h1, h2]

/-- Witness for claim C3 at the concrete state [] and an action of the
unrecognized type CLEAR_ITEMS. -/
theorem reducer_default_identity_total_inst :
    (∃ v, shoppingListItemReducer (.arr []) ⟨"CLEAR_ITEMS", .num 0⟩ = .ok v) ∧
    shoppingListItemReducer (.arr []) ⟨"CLEAR_ITEMS", .num 0⟩ = .ok (.arr []) :=
  ⟨(reducer_default_identity_total [] ⟨"CLEAR_ITEMS", .num 0⟩).1,
   (reducer_default_identity_total [] ⟨"CLEAR_ITEMS", .num 0⟩).2 (by decide) (by decide)⟩

/-- Claim C4: the reducer never mutates its input in place. In the heap-level
embedding, for every allocated state address and every action, the array at
the state address after the call equals its pre-call value, and more generally
every allocated cell of the heap is left unchanged; the add branch only
allocates a fresh cell. -/
theorem reducer_heap_frame (h : Heap) (s : Nat) (a : Action) (hs : s < h.length) :
    readArr (shoppingListItemReducerHeap h s a).1 s = readArr h s ∧
    ∀ r, r < h.length → readArr (shoppingListItemReducerHeap h s a).1 r = readArr h r := by
  have frame : ∀ r, r < h.length →
      readArr (shoppingListItemReducerHeap h s a).1 r = readArr h r := by
    intro r hr
    unfold shoppingListItemReducerHeap
    split
    · rfl
    · split
      · simp only [readArr]
        rw [List.getD_append _ _ _ _ hr]
      · rfl
  exact ⟨frame s hs, frame⟩

/-- Witness for claim C4 at a concrete one-cell heap and an add action: the
state cell still holds its pre-call array after the reducer runs. -/
theorem reducer_heap_frame_inst :
    readArr (shoppingListItemReducerHeap [[JSValue.str "x"]] 0
        (addShoppingListItem (.str "y"))).1 0 =
      readArr [[JSValue.str "x"]] 0 :=
  (reducer_heap_frame [[JSValue.str "x"]] 0 (addShoppingListItem (.str "y")) (by decide)).1

/-- Claim C5: for every string d, addShoppingListItem returns exactly the
tagged record of type ADD_SHOPPING_LIST_ITEM whose payload is the object with
the single field description = d, and the creator maps equal inputs to equal
outputs. -/
theorem addShoppingListItem_form (d : String) :
    addShoppingListItem (.str d) =
      ⟨"ADD_SHOPPING_LIST_ITEM", .obj [("description", .str d)]⟩ ∧
    ∀ d1 d2 : JSValue, d1 = d2 → addShoppingListItem d1 = addShoppingListItem d2 :=
  ⟨rfl, fun _ _ h => by rw [h]⟩

/-- Witness for claim C5 at the concrete description milk. -/
theorem addShoppingListItem_form_inst :
    addShoppingListItem (.str "milk") =
      ⟨"ADD_SHOPPING_LIST_ITEM", .obj [("description", .str "milk")]⟩ ∧
    addShoppingListItem (.str "milk") = addShoppingListItem (.str "milk") :=
  ⟨(addShoppingListItem_form "milk").1,
   (addShoppingListItem_form "milk").2 (.str "milk") (.str "milk") rfl⟩

/-- Claim C6: the seed action carries exactly three items with descriptions
milk, cookies and sprinkles, and folding the reducer over the seed action
followed by addShoppingListItem of chocolate, starting from the empty state,
yields a four-element state whose descriptions are, in order, milk, cookies,
sprinkles, chocolate. -/
theorem bootstrap_scenario :
    getShoppingListItems.payload = .arr seedItems ∧
    seedItems.length = 3 ∧
    seedItems.map descriptionOf =
      [some (.str "milk"), some (.str "cookies"), some (.str "sprinkles")] ∧
    applyActions initialState [getShoppingListItems, addShoppingListItem (.str "chocolate")] =
      .ok (.arr (seedItems ++ [.obj [("description", .str "chocolate")]])) ∧
    (seedItems ++ [JSValue.obj [("description", JSValue.str "chocolate")]]).length = 4 ∧
    (seedItems ++ [JSValue.obj [("description", JSValue.str "chocolate")]]).map descriptionOf =
      [some (JSValue.str "milk"), some (JSValue.str "cookies"), some (JSValue.str "sprinkles"),
       some (JSValue.str "chocolate")] :=
  ⟨rfl, rfl, rfl, rfl, rfl, rfl⟩

/-- Counterexample to claim C7 at the concrete field value with surrounding
spaces: the submit handler passes the raw field value to the callback, which
differs from the trimmed field value the claim announces. -/
theorem triggerAddItem_not_trimmed_cex :
    specTrimmedValue " milk " = "milk" ∧
    triggerAddItem ⟨" milk "⟩ = [" milk "] ∧
    triggerAddItem ⟨" milk "⟩ ≠ [specTrimmedValue " milk "] := by
  refine ⟨by decide, rfl, by decide⟩

/-- Claim C7 as amended: for every submission of the form component, the
caller-supplied callback props.addItem is invoked exactly once, with the raw
field value, no trimming applied. -/
theorem triggerAddItem_raw_value (e : FormEvent) :
    triggerAddItem e = [e.fieldValue] := rfl

/-- Counterexample to claim C8 at the empty field value: the submit handler
does invoke the callback on an empty description instead of rejecting the
submission. -/
theorem triggerAddItem_empty_cex :
    triggerAddItem ⟨""⟩ ≠ [] := by decide

/-- Claim C8 as amended: an empty submitted description is not rejected; the
callback is invoked with the empty string, and feeding that string through the
action creator produces an ADD_SHOPPING_LIST_ITEM command whose payload is the
object with the field description equal to the empty string. -/
theorem triggerAddItem_empty_submits :
    triggerAddItem ⟨""⟩ = [""] ∧
    addShoppingListItem (.str "") =
      ⟨"ADD_SHOPPING_LIST_ITEM", .obj [("description", .str "")]⟩ :=
  ⟨rfl, rfl⟩

/-- Claim C9: the canonical reducer appends the payload of an
ADD_SHOPPING_LIST_ITEM action exactly as given, with no validation or
reshaping, so the last element of the result is the payload even when the
payload is not an item; in particular a bare string payload, which has no
description field, lands unchanged as the last element. -/
theorem add_append_no_validation (S : List JSValue) (p : JSValue) :
    shoppingListItemReducer (.arr S) ⟨"ADD_SHOPPING_LIST_ITEM", p⟩ =
      .ok (.arr (S ++ [p])) ∧
    (S ++ [p]).getLast? = some p ∧
    shoppingListItemReducer (.arr []) ⟨"ADD_SHOPPING_LIST_ITEM", .str "milk"⟩ =
      .ok (.arr [.str "milk"]) ∧
    descriptionOf (.str "milk") = none :=
  ⟨rfl, by simp [List.getLast?_concat], rfl, rfl⟩

/-- Claim C10: the canonical reducer and the draft reducer from the tutorial
text are not equivalent: composed with addShoppingListItem on the empty state,
the draft appends a doubly wrapped object with field description mapped to the
object with field description = milk, while the canonical reducer appends the
singly wrapped item, and the two results differ. -/
theorem reducer_draft_not_equivalent :
    shoppingListItemReducerDraft (.arr []) (addShoppingListItem (.str "milk")) =
      .ok (.arr [.obj [("description", .obj [("description", .str "milk")])]]) ∧
    shoppingListItemReducer (.arr []) (addShoppingListItem (.str "milk")) =
      .ok (.arr [.obj [("description", .str "milk")]]) ∧
    shoppingListItemReducer (.arr []) (addShoppingListItem (.str "milk")) ≠
      shoppingListItemReducerDraft (.arr []) (addShoppingListItem (.str "milk")) := by
  refine ⟨rfl, rfl, ?_⟩
  simp [shoppingListItemReducer, shoppingListItemReducerDraft, addShoppingListItem,
    jsSpread, Except.map]

end ShoppingList
